import Mathlib

/-!
Shallow embedding of the VertexForge asynchronous resource cache
(`src/VFEngine/utilities/resource/ResourceManager.cpp`), the subsystem
covered by the specification: four typed caches (texture, audio, mesh,
shader-set) holding weak references keyed by path, a background sweeper
thread that evicts expired entries, and asynchronous load requests.

Modelling conventions:
* A decoded asset (`ResourceData`) carries a control-block identity `id`.
  A `RefEnv` (`Nat → Nat`) gives, for every identity, the number of strong
  references currently alive anywhere in the process; a weak reference is
  expired exactly when that count is zero, mirroring
  `std::weak_ptr::expired`.
* Each cache is an association list from path to the (weakly held)
  `ResourceData`; the cache itself never contributes to the strong count.
* The sweeper thread, the `running` flag, the cache mutex and the
  condition variable of `periodicCleanup` are modelled as a small labelled
  transition system (`stepFn`) over configurations recording each
  program counter of each thread; mutex ownership is derived from the
  sweeper program counter (the sweeper holds the lock except while blocked in
  `wait_for`, before it starts, and after it exits).
-/

namespace resource

/-- A fully decoded, CPU-side asset. `id` is the identity of the
shared-ownership control block; `payload` stands for the decoded bytes. -/
structure ResourceData where
  id : Nat
  payload : Nat
deriving DecidableEq, Repr

/-- Strong-reference environment: for each control-block identity, how many
strong references exist anywhere. The object is destroyed iff the count
is zero. -/
abbrev RefEnv := Nat → Nat

/-- One typed cache: an association list from path to the weakly held data,
mirroring `std::unordered_map<std::string, std::weak_ptr<T>>`. -/
abbrev Cache := List (String × ResourceData)

/-- `std::weak_ptr::expired` for the data of an entry: no strong reference
exists anywhere. -/
def expired (env : RefEnv) (d : ResourceData) : Bool :=
  env d.id == 0

/-- One pass of `std::erase_if` with the predicate `pair.second.expired()`:
keep exactly the entries whose weak reference still resolves. -/
def sweepCache (env : RefEnv) (c : Cache) : Cache :=
  c.filter (fun p => !(expired env p.2))

/-- First-match association lookup, mirroring `cache.find(path)`. -/
def lookupKey : Cache → String → Option ResourceData
  | [], _ => none
  | (k', d) :: rest, k => if k' = k then some d else lookupKey rest k

/-- The mutable state of `ResourceManager` that the claims are about: the
four caches and the `running` flag. -/
structure RMState where
  textureCache : Cache
  audioCache : Cache
  meshCache : Cache
  shaderCache : Cache
  running : Bool
deriving DecidableEq, Repr

/-- `ResourceManager::unloadUnusedResources` (ResourceManager.cpp:28-35):
erase expired entries from all four caches. -/
def unloadUnusedResources (env : RefEnv) (s : RMState) : RMState :=
  { s with
    textureCache := sweepCache env s.textureCache
    audioCache := sweepCache env s.audioCache
    meshCache := sweepCache env s.meshCache
    shaderCache := sweepCache env s.shaderCache }

/-- `ResourceManager::notifyThread` (ResourceManager.cpp:82-86): under the
cache mutex, set `running` to false. -/
def notifyThread (s : RMState) : RMState :=
  { s with running := false }

/-- `ResourceManager::releaseResources` (ResourceManager.cpp:88-95): under
the cache mutex, run one `unloadUnusedResources` sweep, then clear the
texture, audio and mesh caches. The source clears only those three;
`shaderCache` is not cleared. -/
def releaseResources (env : RefEnv) (s : RMState) : RMState :=
  let s1 := unloadUnusedResources env s
  { s1 with textureCache := [], audioCache := [], meshCache := [] }

/-- The effect of `ResourceManager::cleanUp` (ResourceManager.cpp:75-80) on
the manager state: `notifyThread()` then `releaseResources()` (the
`notify_one` between them only signals the sweeper and changes no state). -/
def cleanUpState (env : RefEnv) (s : RMState) : RMState :=
  releaseResources env (notifyThread s)

/-- A decode failure surfaced to the caller: the requested path and the
underlying cause. -/
structure ResourceLoadError where
  path : String
  cause : String
deriving DecidableEq, Repr

/-- Modelled from the spec: `TypedCache.tryGet` — the template
`loadResourceAsync` in ResourceManager.hpp is not among the provided
sources. "resolves the stored weak reference; returns a strong reference
on success, absent if no entry exists or the weak reference no longer
resolves"; read-only. -/
def tryGet (env : RefEnv) (c : Cache) (k : String) : Option ResourceData :=
  match lookupKey c k with
  | none => none
  | some d => if expired env d then none else some d

/-- Modelled from the spec: `TypedCache.publish` — "inserts or replaces the
entry for `key` with a weak view of the given strong reference". -/
def publish : Cache → String → ResourceData → Cache
  | [], k, d => [(k, d)]
  | (k', d') :: rest, k, d =>
    if k' = k then (k, d) :: rest else (k', d') :: publish rest k d

/-- Modelled from the spec: `ResourceManager.loadAsync` — the template
`loadResourceAsync` in ResourceManager.hpp is not among the provided
sources. Returns the resolved value of the `PendingLoad`, the cache after
the call, and how many times the kind-specific decoder was invoked.
Spec §4.2: on a live cache hit, return the cached strong reference with no
decoding; on a miss, invoke the decoder; on success publish a weak view
and resolve with the strong reference; on failure resolve to a
`ResourceLoadError` with the path and underlying cause, publishing
nothing. -/
def loadAsync (decode : String → Except String ResourceData) (env : RefEnv)
    (c : Cache) (k : String) :
    (Except ResourceLoadError ResourceData) × Cache × Nat :=
  match tryGet env c k with
  | some d => (Except.ok d, c, 0)
  | none =>
    match decode k with
    | Except.ok d => (Except.ok d, publish c k d, 1)
    | Except.error cause => (Except.error ⟨k, cause⟩, c, 1)

/-- Program counter of the sweeper thread running
`ResourceManager::periodicCleanup` (ResourceManager.cpp:9-26).
`notStarted`: the `std::jthread` has not been created; `atLoopTest`: at the
`while (running)` test, holding the cache mutex; `waiting`: blocked in
`cleanupCondition.wait_for`, mutex released; `checkAfterWake`: woken with
the mutex re-acquired, at the `if (!running) break;` check; `exited`: the
loop was left, the mutex released and the thread function returned. -/
inductive SweeperPC
  | notStarted
  | atLoopTest
  | waiting
  | checkAfterWake
  | exited
deriving DecidableEq, Repr

/-- Program counter of the caller thread stepping through
`ResourceManager::cleanUp` (ResourceManager.cpp:75-80): before the call,
after `notifyThread()`, after `cleanupCondition.notify_one()`, and after
`releaseResources()` (i.e. `cleanUp` has returned). -/
inductive MainPC
  | mStart
  | afterNotify
  | afterSignal
  | done
deriving DecidableEq, Repr

/-- A configuration of the two-thread system: the manager state, whether
`init` has created the sweeper thread, both program counters, and a count
of the sweep passes performed by the sweeper loop (instrumentation, not
program state). -/
structure Config where
  rm : RMState
  sweeperStarted : Bool
  spc : SweeperPC
  mpc : MainPC
  sweeperSweeps : Nat
deriving DecidableEq, Repr

/-- The cache mutex is free exactly when the sweeper does not hold it: the
sweeper holds `cacheMutex` from the `std::unique_lock` at the top of
`periodicCleanup` until it exits, except while blocked inside `wait_for`. -/
def lockFree (c : Config) : Bool :=
  c.spc == SweeperPC.notStarted || c.spc == SweeperPC.waiting ||
    c.spc == SweeperPC.exited

/-- Atomic actions of the two threads. `initL` is `ResourceManager::init`
(ResourceManager.cpp:69-73). `sAcquire`, `sLoopTest`, `sWake`, `sCheck`
are the sweeper steps through `periodicCleanup`. `mNotify`, `mSignal`,
`mRelease` are the three statements of `cleanUp`. -/
inductive Label
  | initL
  | sAcquire
  | sLoopTest
  | sWake
  | sCheck
  | mNotify
  | mSignal
  | mRelease
deriving DecidableEq, Repr

/-- One interleaved step: `stepFn env l c` is the configuration after
thread action `l` fires from `c`, or `none` when `l` is not enabled
(wrong program counter, or the mutex is held by the other thread).

* `initL`: `running = true;` then start the sweeper thread.
* `sAcquire`: the new thread takes the mutex and reaches `while (running)`.
* `sLoopTest`: with the mutex held, test `running`; if true enter
  `wait_for` (releasing the mutex), else leave the loop and exit.
* `sWake`: return from `wait_for` (timeout or notification), re-acquiring
  the mutex, reaching `if (!running)`.
* `sCheck`: if `running` is false, `break` and exit; otherwise perform
  `unloadUnusedResources()` and return to the `while` test.
* `mNotify`: `notifyThread()` — needs the mutex; sets `running = false`.
* `mSignal`: `notify_one()` — no state change, no mutex needed.
* `mRelease`: `releaseResources()` — needs the mutex; final sweep then
  clear the texture, audio and mesh caches. `cleanUp` then returns. -/
def stepFn (env : RefEnv) (l : Label) (c : Config) : Option Config :=
  match l with
  | Label.initL =>
    if c.mpc == MainPC.mStart && !c.sweeperStarted then
      some { c with rm := { c.rm with running := true }, sweeperStarted := true }
    else none
  | Label.sAcquire =>
    if c.sweeperStarted && c.spc == SweeperPC.notStarted then
      some { c with spc := SweeperPC.atLoopTest }
    else none
  | Label.sLoopTest =>
    if c.spc == SweeperPC.atLoopTest then
      some { c with spc := if c.rm.running then SweeperPC.waiting else SweeperPC.exited }
    else none
  | Label.sWake =>
    if c.spc == SweeperPC.waiting then
      some { c with spc := SweeperPC.checkAfterWake }
    else none
  | Label.sCheck =>
    if c.spc == SweeperPC.checkAfterWake then
      if c.rm.running then
        some { c with rm := unloadUnusedResources env c.rm,
                      spc := SweeperPC.atLoopTest,
                      sweeperSweeps := c.sweeperSweeps + 1 }
      else some { c with spc := SweeperPC.exited }
    else none
  | Label.mNotify =>
    if c.mpc == MainPC.mStart && lockFree c then
      some { c with rm := notifyThread c.rm, mpc := MainPC.afterNotify }
    else none
  | Label.mSignal =>
    if c.mpc == MainPC.afterNotify then
      some { c with mpc := MainPC.afterSignal }
    else none
  | Label.mRelease =>
    if c.mpc == MainPC.afterSignal && lockFree c then
      some { c with rm := releaseResources env c.rm, mpc := MainPC.done }
    else none

/-- Run a sequence of interleaved steps; `none` if any step is disabled. -/
def runTrace (env : RefEnv) : List Label → Config → Option Config
  | [], c => some c
  | l :: ls, c =>
    match stepFn env l c with
    | none => none
    | some c' => runTrace env ls c'

/-- The labels belonging to the sweeper thread. -/
def sweeperLabel (l : Label) : Bool :=
  l == Label.sAcquire || l == Label.sLoopTest || l == Label.sWake ||
    l == Label.sCheck

/-! ### Concrete fixtures used by witnesses and counterexamples -/

/-- A sample decoded asset with control block 1. -/
def d1 : ResourceData := ⟨1, 7⟩

/-- An environment where no strong reference exists to anything. -/
def env0 : RefEnv := fun _ => 0

/-- An environment where exactly control block 1 has a strong reference. -/
def envLive : RefEnv := fun i => if i = 1 then 1 else 0

/-- A decoder fixture that succeeds on `"a"` and fails elsewhere. -/
def decode1 : String → Except String ResourceData :=
  fun p => if p = "a" then Except.ok d1 else Except.error "missing file"

/-- A manager state whose four caches each hold one entry backed by a live
strong reference (under `envLive`). -/
def sBad : RMState :=
  ⟨[("t.png", d1)], [("a.wav", d1)], [("m.obj", d1)], [("s.glsl", d1)], true⟩

/-- Initial configuration: nothing started, empty caches. -/
def c0 : Config :=
  ⟨⟨[], [], [], [], false⟩, false, SweeperPC.notStarted, MainPC.mStart, 0⟩

/-- A configuration with the sweeper woken at the `if (!running)` check
while `running` is still true. -/
def cChkRun : Config :=
  ⟨sBad, true, SweeperPC.checkAfterWake, MainPC.mStart, 0⟩

/-- A configuration with the sweeper woken at the `if (!running)` check
after `running` was set to false. -/
def cChkStop : Config :=
  ⟨{ sBad with running := false }, true, SweeperPC.checkAfterWake,
    MainPC.afterSignal, 0⟩

/-! ### Helper lemmas -/

/-- Membership in a swept cache: present before and not expired. -/
lemma mem_sweepCache {env : RefEnv} {c : Cache} {p : String × ResourceData} :
    p ∈ sweepCache env c ↔ p ∈ c ∧ expired env p.2 = false := by
  simp [sweepCache, List.mem_filter]

/-- Sweeping is idempotent at the level of one cache. -/
lemma sweepCache_idem (env : RefEnv) (c : Cache) :
    sweepCache env (sweepCache env c) = sweepCache env c := by
  induction c with
  | nil => rfl
  | cons p rest ih =>
    cases h : (!expired env p.2) with
    | false => simp [sweepCache, List.filter_cons, h, ih]
    | true => simp [sweepCache, List.filter_cons, h, ih]

/-- In an association list with no duplicate keys, a key determines its
mapped value. -/
lemma assoc_value_unique {c : Cache} {k : String} {d d' : ResourceData}
    (hnd : (c.map Prod.fst).Nodup) (h1 : (k, d) ∈ c) (h2 : (k, d') ∈ c) :
    d = d' := by
  induction c with
  | nil => cases h1
  | cons p rest ih =>
    simp only [List.map_cons, List.nodup_cons] at hnd
    rcases List.mem_cons.mp h1 with h1h | h1t
    · rcases List.mem_cons.mp h2 with h2h | h2t
      · have hp : (k, d) = (k, d') := h1h.trans h2h.symm
        exact (Prod.mk.injEq _ _ _ _ ▸ hp).2
      · exfalso
        apply hnd.1
        have hk : p.1 = k := by rw [← h1h]
        rw [hk]
        exact List.mem_map.mpr ⟨(k, d'), h2t, rfl⟩
    · rcases List.mem_cons.mp h2 with h2h | h2t
      · exfalso
        apply hnd.1
        have hk : p.1 = k := by rw [← h2h]
        rw [hk]
        exact List.mem_map.mpr ⟨(k, d), h1t, rfl⟩
      · exact ih hnd.2 h1t h2t

/-- Looking up a key right after publishing it yields the published data. -/
lemma lookupKey_publish (c : Cache) (k : String) (d : ResourceData) :
    lookupKey (publish c k d) k = some d := by
  induction c with
  | nil => simp [publish, lookupKey]
  | cons p rest ih =>
    rcases p with ⟨k', d'⟩
    by_cases h : k' = k
    · simp [publish, lookupKey, h]
    · simp [publish, lookupKey, h, ih]

/-- `tryGet` right after publishing, while a strong reference is held,
resolves to the published data. -/
lemma tryGet_publish_live {env : RefEnv} (c : Cache) {k : String}
    {d : ResourceData} (h : env d.id ≠ 0) :
    tryGet env (publish c k d) k = some d := by
  have hexp : expired env d = false := by
    simp [expired]
    exact h
  simp [tryGet, lookupKey_publish, hexp]

/-- A cache hit returns the cached data, leaves the cache unchanged and
invokes no decoder. -/
lemma loadAsync_hit {decode : String → Except String ResourceData}
    {env : RefEnv} {c : Cache} {k : String} {d : ResourceData}
    (h : tryGet env c k = some d) :
    loadAsync decode env c k = (Except.ok d, c, 0) := by
  simp [loadAsync, h]

/-- A cache miss with a successful decode invokes the decoder once,
publishes the result and resolves with it. -/
lemma loadAsync_miss_ok {decode : String → Except String ResourceData}
    {env : RefEnv} {c : Cache} {k : String} {d : ResourceData}
    (h1 : tryGet env c k = none) (h2 : decode k = Except.ok d) :
    loadAsync decode env c k = (Except.ok d, publish c k d, 1) := by
  simp [loadAsync, h1, h2]

/-- A cache miss with a failing decode resolves to a `ResourceLoadError`
carrying the path and cause, and leaves the cache unchanged. -/
lemma loadAsync_miss_err {decode : String → Except String ResourceData}
    {env : RefEnv} {c : Cache} {k : String} {cause : String}
    (h1 : tryGet env c k = none) (h2 : decode k = Except.error cause) :
    loadAsync decode env c k = (Except.error ⟨k, cause⟩, c, 1) := by
  simp [loadAsync, h1, h2]

/-- Any step other than `init`, taken while `running` is false, keeps
`running` false and performs no sweeper sweep. -/
lemma stopped_step {env : RefEnv} {l : Label} {c c' : Config}
    (hl : l ≠ Label.initL) (hr : c.rm.running = false)
    (h : stepFn env l c = some c') :
    c'.rm.running = false ∧ c'.sweeperSweeps = c.sweeperSweeps := by
  cases l with
  | initL => exact absurd rfl hl
  | sAcquire =>
    simp only [stepFn] at h
    split at h
    · cases h; exact ⟨hr, rfl⟩
    · cases h
  | sLoopTest =>
    simp only [stepFn] at h
    split at h
    · cases h; exact ⟨hr, rfl⟩
    · cases h
  | sWake =>
    simp only [stepFn] at h
    split at h
    · cases h; exact ⟨hr, rfl⟩
    · cases h
  | sCheck =>
    simp only [stepFn] at h
    split at h
    · rw [hr] at h
      simp only [Bool.false_eq_true, if_false] at h
      cases h; exact ⟨hr, rfl⟩
    · cases h
  | mNotify =>
    simp only [stepFn] at h
    split at h
    · cases h; exact ⟨rfl, rfl⟩
    · cases h
  | mSignal =>
    simp only [stepFn] at h
    split at h
    · cases h; exact ⟨hr, rfl⟩
    · cases h
  | mRelease =>
    simp only [stepFn] at h
    split at h
    · cases h
      exact ⟨hr, rfl⟩
    · cases h

/-- Along any trace without an `init` step, once `running` is false it
stays false and the sweeper performs no further sweep. -/
lemma stopped_trace {env : RefEnv} (ls : List Label) :
    ∀ c c' : Config, c.rm.running = false → Label.initL ∉ ls →
      runTrace env ls c = some c' →
      c'.rm.running = false ∧ c'.sweeperSweeps = c.sweeperSweeps := by
  induction ls with
  | nil =>
    intro c c' hr _ h
    simp [runTrace] at h
    rw [← h]
    exact ⟨hr, rfl⟩
  | cons l rest ih =>
    intro c c' hr hmem h
    have hl : l ≠ Label.initL := fun he => hmem (he ▸ List.mem_cons_self l rest)
    have hrest : Label.initL ∉ rest := fun he => hmem (List.mem_cons_of_mem l he)
    simp only [runTrace] at h
    cases hstep : stepFn env l c with
    | none => rw [hstep] at h; cases h
    | some cmid =>
      rw [hstep] at h
      have hmid := stopped_step hl hr hstep
      have := ih cmid c' hmid.1 hrest h
      exact ⟨this.1, this.2.trans hmid.2⟩

/-- A cache with one live entry and one dead entry (under `envLive`). -/
def cMix : Cache := [("t.png", d1), ("dead.png", ⟨2, 0⟩)]

/-- The interleaving: `init`, the sweeper starts and enters `wait_for`,
then the main thread runs the three statements of `cleanUp` to completion
while the sweeper is still blocked inside `wait_for`. -/
def cleanupTrace : List Label :=
  [Label.initL, Label.sAcquire, Label.sLoopTest, Label.mNotify,
    Label.mSignal, Label.mRelease]

/-- The configuration after the sweeper, stopped, leaves its loop. -/
def cStopExit : Config := { cChkStop with spc := SweeperPC.exited }

/-- The configuration after the sweeper, still running, sweeps once. -/
def cRunSwept : Config :=
  { cChkRun with rm := unloadUnusedResources envLive cChkRun.rm,
                 spc := SweeperPC.atLoopTest,
                 sweeperSweeps := cChkRun.sweeperSweeps + 1 }

/-- The configuration after `init` fires from the initial configuration. -/
def c0Init : Config :=
  { c0 with rm := { c0.rm with running := true }, sweeperStarted := true }

/-! ### Claims -/

/-- Claim C1 (code bug): the claim says that after `cleanUp()` every one of
the four caches is empty, including entries still backed by live strong
references. On the source this fails: `releaseResources`
(ResourceManager.cpp:88-95) clears `textureCache`, `audioCache` and
`meshCache` but never clears `shaderCache`, so a shader entry backed by a
live strong reference survives `cleanUp`. Evaluated at a state whose four
caches each hold one live-backed entry: the first three caches end empty
and the shader cache keeps its entry. -/
theorem C1_cleanUp_leaves_live_shader_entry :
    cleanUpState envLive sBad =
      { textureCache := [], audioCache := [], meshCache := [],
        shaderCache := [("s.glsl", d1)], running := false } ∧
    (cleanUpState envLive sBad).shaderCache ≠ [] := by
  decide

/-- Claim C2, counterexample: an execution of the two-thread system in
which `init` runs, the sweeper starts and blocks in `wait_for`, and then
the main thread performs all three statements of `cleanUp`
(`notifyThread`, `notify_one`, `releaseResources`) and returns while the
sweeper thread is still blocked in `wait_for` — so `cleanUp` does not
return "only after the sweeper thread has fully exited": nothing in
`cleanUp` joins the thread (the `std::jthread` is joined at destruction,
not here). -/
theorem C2_cleanUp_returns_before_sweeper_exit :
    (runTrace env0 cleanupTrace c0).map (fun cf => (cf.mpc, cf.spc)) =
      some (MainPC.done, SweeperPC.waiting) ∧
    SweeperPC.waiting ≠ SweeperPC.exited := by
  decide

/-- Claim C2, amended: `cleanUp` sets `running` to false (under the mutex)
and signals the sweeper; once `running` is false, the sweeper observes it
at its very next wake-check and exits its loop immediately, without
sweeping and without waiting out the sleep interval. `cleanUp` itself,
however, may return before the sweeper thread has fully exited. -/
theorem C2_shutdown_signal_prompt_exit (env : RefEnv) (c : Config) :
    (c.mpc = MainPC.mStart → lockFree c = true →
      stepFn env Label.mNotify c =
        some { c with rm := notifyThread c.rm, mpc := MainPC.afterNotify } ∧
      (notifyThread c.rm).running = false) ∧
    (c.rm.running = false → c.spc = SweeperPC.checkAfterWake →
      stepFn env Label.sCheck c = some { c with spc := SweeperPC.exited }) := by
  constructor
  · intro h1 h2
    refine ⟨by simp [stepFn, h1, h2], rfl⟩
  · intro h1 h2
    simp [stepFn, h1, h2]

/-- Witness for C2: the amended theorem applied at concrete
configurations. -/
theorem C2_shutdown_signal_prompt_exit_witness :
    (stepFn env0 Label.mNotify c0 =
        some { c0 with rm := notifyThread c0.rm, mpc := MainPC.afterNotify } ∧
      (notifyThread c0.rm).running = false) ∧
    stepFn env0 Label.sCheck cChkStop = some cStopExit :=
  ⟨(C2_shutdown_signal_prompt_exit env0 c0).1 (by decide) (by decide),
    (C2_shutdown_signal_prompt_exit env0 cChkStop).2 (by decide) (by decide)⟩

/-- Claim C3: a sweep removes exactly the stale entries. For a key `k`
mapped (uniquely) to data `d` in a cache: if no strong reference to `d`
exists (`env d.id = 0`) the sweep removes `k`; if one exists the entry
survives unchanged. The final conjunct records that
`unloadUnusedResources` is exactly this sweep applied to each of the four
caches. -/
theorem C3_sweep_removes_exactly_stale (env : RefEnv) (s : RMState)
    (c : Cache) (k : String) (d : ResourceData)
    (hnd : (c.map Prod.fst).Nodup) (hmem : (k, d) ∈ c) :
    (env d.id = 0 → ∀ e : ResourceData, (k, e) ∉ sweepCache env c) ∧
    (env d.id ≠ 0 → (k, d) ∈ sweepCache env c) ∧
    unloadUnusedResources env s =
      { s with
        textureCache := sweepCache env s.textureCache,
        audioCache := sweepCache env s.audioCache,
        meshCache := sweepCache env s.meshCache,
        shaderCache := sweepCache env s.shaderCache } := by
  refine ⟨?_, ?_, rfl⟩
  · intro hz e hm
    have h := mem_sweepCache.mp hm
    have hde : e = d := assoc_value_unique hnd h.1 hmem
    rw [hde] at h
    simp [expired, hz] at h
  · intro hnz
    refine mem_sweepCache.mpr ⟨hmem, ?_⟩
    simp [expired]
    exact hnz

/-- Witness for C3: under `envLive`, sweeping `cMix` removes the dead
entry and keeps the live one. -/
theorem C3_sweep_removes_exactly_stale_witness :
    ("dead.png", (⟨2, 0⟩ : ResourceData)) ∉ sweepCache envLive cMix ∧
    ("t.png", d1) ∈ sweepCache envLive cMix :=
  ⟨(C3_sweep_removes_exactly_stale envLive sBad cMix "dead.png" ⟨2, 0⟩
      (by decide) (by decide)).1 (by decide) ⟨2, 0⟩,
    (C3_sweep_removes_exactly_stale envLive sBad cMix "t.png" d1
      (by decide) (by decide)).2.1 (by decide)⟩

/-- Claim C4: `tryGet` never returns destroyed data — every hit resolves
the stored entry to data that still has a strong reference somewhere
(`env d.id ≠ 0`), and the returned data is exactly the stored entry; a
stale entry is reported absent, never returned as a hit. -/
theorem C4_tryGet_never_stale (env : RefEnv) (c : Cache) (k : String)
    (d : ResourceData) (h : tryGet env c k = some d) :
    env d.id ≠ 0 ∧ lookupKey c k = some d := by
  cases hl : lookupKey c k with
  | none => simp [tryGet, hl] at h
  | some e =>
    cases hexp : expired env e with
    | true => simp [tryGet, hl, hexp] at h
    | false =>
      simp [tryGet, hl, hexp] at h
      subst h
      simp [expired] at hexp
      exact ⟨hexp, rfl⟩

/-- Witness for C4: a concrete hit on a live entry. -/
theorem C4_tryGet_never_stale_witness :
    envLive d1.id ≠ 0 ∧ lookupKey [("t.png", d1)] "t.png" = some d1 :=
  C4_tryGet_never_stale envLive [("t.png", d1)] "t.png" d1 (by decide)

/-- Claim C5: cache hits avoid redecoding. With a miss, the first
`loadAsync` decodes once and publishes; while the caller still holds a
strong reference, the second `loadAsync` for the same key returns the same
already-resolved data with the decoder invoked zero further times and no
cache change. -/
theorem C5_cache_hit_avoids_redecode
    (decode : String → Except String ResourceData) (env envHold : RefEnv)
    (c : Cache) (k : String) (d : ResourceData)
    (h1 : tryGet env c k = none) (h2 : decode k = Except.ok d)
    (h3 : envHold d.id ≠ 0) :
    loadAsync decode env c k = (Except.ok d, publish c k d, 1) ∧
    loadAsync decode envHold (publish c k d) k =
      (Except.ok d, publish c k d, 0) :=
  ⟨loadAsync_miss_ok h1 h2, loadAsync_hit (tryGet_publish_live c h3)⟩

/-- Witness for C5: loading `"a"` twice, with a strong reference held at
the second call, decodes exactly once. -/
theorem C5_cache_hit_avoids_redecode_witness :
    loadAsync decode1 env0 [] "a" = (Except.ok d1, publish [] "a" d1, 1) ∧
    loadAsync decode1 envLive (publish [] "a" d1) "a" =
      (Except.ok d1, publish [] "a" d1, 0) :=
  C5_cache_hit_avoids_redecode decode1 env0 envLive [] "a" d1
    (by decide) rfl (by decide)

/-- Claim C6: on decode failure the resolved value is a
`ResourceLoadError` carrying the requested path and the underlying cause,
the decoder ran once, and the cache after the call is exactly the cache
before it — no entry (for this or any other key) is added, removed or
modified. -/
theorem C6_decode_failure_isolated
    (decode : String → Except String ResourceData) (env : RefEnv)
    (c : Cache) (k : String) (cause : String)
    (h1 : tryGet env c k = none) (h2 : decode k = Except.error cause) :
    loadAsync decode env c k = (Except.error ⟨k, cause⟩, c, 1) :=
  loadAsync_miss_err h1 h2

/-- Witness for C6: a failing load of `"b"` surfaces the path and cause
and leaves the (nonempty) cache exactly as it was. -/
theorem C6_decode_failure_isolated_witness :
    loadAsync decode1 env0 [("t.png", d1)] "b" =
      (Except.error ⟨"b", "missing file"⟩, [("t.png", d1)], 1) :=
  C6_decode_failure_isolated decode1 env0 [("t.png", d1)] "b" "missing file"
    (by decide) rfl

/-- Claim C7: the sweeper loop. On a wake with `running` false it exits
without sweeping (state and sweep count untouched); on a wake with
`running` true it performs `unloadUnusedResources` — the sweep of all four
caches, as the fourth conjunct records — and continues the loop; and along
any trace without an `init` step, once `running` is false the sweeper
performs no further sweep. -/
theorem C7_sweeper_loop_behavior (env : RefEnv) (c : Config)
    (ls : List Label) (cf : Config) :
    (c.spc = SweeperPC.checkAfterWake → c.rm.running = false →
      stepFn env Label.sCheck c = some { c with spc := SweeperPC.exited }) ∧
    (c.spc = SweeperPC.checkAfterWake → c.rm.running = true →
      stepFn env Label.sCheck c =
        some { c with rm := unloadUnusedResources env c.rm,
                      spc := SweeperPC.atLoopTest,
                      sweeperSweeps := c.sweeperSweeps + 1 }) ∧
    unloadUnusedResources env c.rm =
      { c.rm with
        textureCache := sweepCache env c.rm.textureCache,
        audioCache := sweepCache env c.rm.audioCache,
        meshCache := sweepCache env c.rm.meshCache,
        shaderCache := sweepCache env c.rm.shaderCache } ∧
    (c.rm.running = false → Label.initL ∉ ls → runTrace env ls c = some cf →
      cf.rm.running = false ∧ cf.sweeperSweeps = c.sweeperSweeps) := by
  refine ⟨?_, ?_, rfl, ?_⟩
  · intro h1 h2
    simp [stepFn, h1, h2]
  · intro h1 h2
    simp [stepFn, h1, h2]
  · intro h1 h2 h3
    exact stopped_trace ls c cf h1 h2 h3

/-- Witness for C7: the stopped sweeper exits without sweeping, the
running sweeper sweeps and loops, and a concrete stopped trace keeps the
sweep count at zero. -/
theorem C7_sweeper_loop_behavior_witness :
    stepFn env0 Label.sCheck cChkStop = some cStopExit ∧
    stepFn envLive Label.sCheck cChkRun = some cRunSwept ∧
    (cStopExit.rm.running = false ∧
      cStopExit.sweeperSweeps = cChkStop.sweeperSweeps) :=
  ⟨(C7_sweeper_loop_behavior env0 cChkStop [] cStopExit).1
      (by decide) (by decide),
    (C7_sweeper_loop_behavior envLive cChkRun [] cRunSwept).2.1
      (by decide) (by decide),
    (C7_sweeper_loop_behavior env0 cChkStop [Label.sCheck] cStopExit).2.2.2
      (by decide) (by decide) (by decide)⟩

/-- Claim C8: before `init` no sweeper action is even enabled (so no
automatic eviction can occur), while `loadAsync` already functions and
resolves correctly; `init` sets `running` to true and starts the sweeper
thread. -/
theorem C8_load_before_init_no_eviction (env : RefEnv) (c : Config)
    (l : Label) (decode : String → Except String ResourceData)
    (cache : Cache) (k : String) (d : ResourceData) :
    (c.mpc = MainPC.mStart → c.sweeperStarted = false →
      stepFn env Label.initL c =
        some { c with rm := { c.rm with running := true },
                      sweeperStarted := true }) ∧
    (sweeperLabel l = true → c.sweeperStarted = false →
      c.spc = SweeperPC.notStarted → stepFn env l c = none) ∧
    (tryGet env cache k = none → decode k = Except.ok d →
      loadAsync decode env cache k = (Except.ok d, publish cache k d, 1)) ∧
    (tryGet env cache k = some d →
      loadAsync decode env cache k = (Except.ok d, cache, 0)) := by
  refine ⟨?_, ?_, fun h1 h2 => loadAsync_miss_ok h1 h2, fun h => loadAsync_hit h⟩
  · intro h1 h2
    simp [stepFn, h1, h2]
  · intro hsw h1 h2
    cases l with
    | sAcquire => simp [stepFn, h1]
    | sLoopTest => simp [stepFn, h2]
    | sWake => simp [stepFn, h2]
    | sCheck => simp [stepFn, h2]
    | initL => simp [sweeperLabel] at hsw
    | mNotify => simp [sweeperLabel] at hsw
    | mSignal => simp [sweeperLabel] at hsw
    | mRelease => simp [sweeperLabel] at hsw

/-- Witness for C8: from the initial configuration, `init` starts the
sweeper; before it, a sweeper wake is disabled; `loadAsync` decodes on a
miss and serves a live hit without decoding. -/
theorem C8_load_before_init_no_eviction_witness :
    stepFn env0 Label.initL c0 = some c0Init ∧
    stepFn env0 Label.sWake c0 = none ∧
    loadAsync decode1 env0 [] "a" = (Except.ok d1, publish [] "a" d1, 1) ∧
    loadAsync decode1 envLive [("a", d1)] "a" = (Except.ok d1, [("a", d1)], 0) :=
  ⟨(C8_load_before_init_no_eviction env0 c0 Label.sWake decode1 [] "a" d1).1
      (by decide) (by decide),
    (C8_load_before_init_no_eviction env0 c0 Label.sWake decode1 [] "a" d1).2.1
      (by decide) (by decide) (by decide),
    (C8_load_before_init_no_eviction env0 c0 Label.sWake decode1 [] "a" d1).2.2.1
      (by decide) rfl,
    (C8_load_before_init_no_eviction envLive c0 Label.sWake decode1
        [("a", d1)] "a" d1).2.2.2 (by decide)⟩

/-- Claim C9: the sweep is idempotent — with reference counts unchanged
in between (the same `env`), sweeping twice equals sweeping once, on all
four caches at once. -/
theorem C9_sweep_idempotent (env : RefEnv) (s : RMState) :
    unloadUnusedResources env (unloadUnusedResources env s) =
      unloadUnusedResources env s := by
  simp [unloadUnusedResources, sweepCache_idem]

/-- Claim C10: a sweep only removes entries — every surviving pair was
present, with the identical mapped data, before the sweep; hence every key
present after the sweep was present before it; and `unloadUnusedResources`
is exactly this per-cache sweep on each of the four caches. -/
theorem C10_sweep_only_removes (env : RefEnv) (s : RMState) (c : Cache)
    (k : String) (d : ResourceData) (hmem : (k, d) ∈ sweepCache env c) :
    (k, d) ∈ c ∧ k ∈ c.map Prod.fst ∧
    unloadUnusedResources env s =
      { s with
        textureCache := sweepCache env s.textureCache,
        audioCache := sweepCache env s.audioCache,
        meshCache := sweepCache env s.meshCache,
        shaderCache := sweepCache env s.shaderCache } := by
  have h := mem_sweepCache.mp hmem
  exact ⟨h.1, List.mem_map.mpr ⟨(k, d), h.1, rfl⟩, rfl⟩

/-- Witness for C10: the surviving live entry of `cMix` was present, with
the same data, before the sweep. -/
theorem C10_sweep_only_removes_witness :
    ("t.png", d1) ∈ cMix ∧ "t.png" ∈ cMix.map Prod.fst :=
  ⟨(C10_sweep_only_removes envLive sBad cMix "t.png" d1 (by decide)).1,
    (C10_sweep_only_removes envLive sBad cMix "t.png" d1 (by decide)).2.1⟩

end resource
